import Mathlib

/-!
Shallow embedding of the API client / data-access layer of the
longevity-clinical-intervention front-end, together with the page-component
handlers the verified properties refer to.

Sources embedded:
* services/api.ts : the shared axios client (`api`), `interventionsApi`,
  `evidenceApi`, `recommendationsApi`;
* services/auth.ts : `authApi`;
* types (Intervention, Evidence, Recommendation, InterventionWithScores,
  User, Token, LoginRequest, RegisterRequest, HealthProfile);
* components/LoginPage.tsx `handleSubmit`, components/RegisterPage.tsx
  `handleSubmit`, components/InterventionDetail.tsx `loadData` and the
  evidence-item rendering conditions.

JavaScript numbers are modelled as rationals (the properties verified only
use ordering and equality); strings as Lean strings; `undefined`-able values
as `Option`; promise outcomes as `Except`.
-/

namespace LCI

/-- HTTP verbs exposed by the axios client. -/
inductive Verb
  | get
  | post
  | put
  | delete
deriving DecidableEq, Repr

/-- Configuration of an axios instance: base URL and request timeout (ms). -/
structure AxiosConfig where
  baseURL : String
  timeout : Nat
deriving DecidableEq, Repr

/-- The single shared client: `axios.create({ baseURL: API_BASE, timeout: 10000 })`
with `API_BASE = '/api/v1'`. -/
def api : AxiosConfig := { baseURL := "/api/v1", timeout := 10000 }

/-! Domain types (types/index.ts and types/user.ts). -/

/-- Intervention record. -/
structure Intervention where
  id : Nat
  name : String
  name_en : Option String := none
  description : Option String := none
  category : String
  mechanism : Option String := none
  evidence_level : Nat
  created_at : String
  updated_at : String
deriving DecidableEq, Repr

/-- Effect-size sub-object of Evidence: metric, value and a 95 percent
confidence interval given as a (low, high) pair. -/
structure EffectSize where
  metric : String
  value : Rat
  ci_95 : Rat × Rat
deriving DecidableEq, Repr

/-- Evidence record. -/
structure Evidence where
  id : Nat
  intervention_id : Nat
  source_type : Option String := none
  pubmed_id : Option String := none
  citation : Option String := none
  sample_size : Option Nat := none
  duration_days : Option Nat := none
  effect_size : Option EffectSize := none
  outcomes : Option (List String) := none
  quality_score : Option Rat := none
  created_at : String := ""
deriving DecidableEq, Repr

/-- Recommendation record. -/
structure Recommendation where
  id : Nat
  user_id : String
  intervention_id : Nat
  priority : Nat
  reasoning : Option String := none
  risk_score : Option Rat := none
  benefit_score : Option Rat := none
  net_benefit : Option Rat := none
  created_at : String := ""
deriving DecidableEq, Repr

/-- Flattened Intervention + scores projection for the dashboard. -/
structure InterventionWithScores where
  id : Nat
  name : String
  category : String
  evidence_level : Nat
  risk_score : Rat
  benefit_score : Rat
  net_benefit : Rat
deriving DecidableEq, Repr

/-- User record. -/
structure User where
  id : Nat
  username : String
  email : String
  full_name : Option String := none
  is_active : Bool
  is_admin : Bool
  created_at : String
  updated_at : String
deriving DecidableEq, Repr

/-- Login form payload. -/
structure LoginRequest where
  username : String
  password : String
deriving DecidableEq, Repr

/-- Registration form payload. -/
structure RegisterRequest where
  username : String
  email : String
  password : String
  full_name : Option String := none
deriving DecidableEq, Repr

/-- Token pair returned by login / refresh. -/
structure Token where
  access_token : String
  refresh_token : String
  token_type : String
deriving DecidableEq, Repr

/-- Health profile; every field optional, family history an open map. -/
structure HealthProfile where
  id : Option Nat := none
  user_id : Option Nat := none
  age : Option Nat := none
  gender : Option String := none
  weight : Option Rat := none
  height : Option Rat := none
  blood_pressure_systolic : Option Nat := none
  blood_pressure_diastolic : Option Nat := none
  heart_rate : Option Nat := none
  medical_conditions : Option (List String) := none
  allergies : Option (List String) := none
  current_medications : Option (List String) := none
  family_history : Option (List (String × String)) := none
  created_at : Option String := none
  updated_at : Option String := none
deriving DecidableEq, Repr

/-- Partial Intervention (TypeScript `Partial<Intervention>`). -/
structure InterventionPatch where
  id : Option Nat := none
  name : Option String := none
  name_en : Option String := none
  description : Option String := none
  category : Option String := none
  mechanism : Option String := none
  evidence_level : Option Nat := none
deriving DecidableEq, Repr

/-- Partial Evidence (TypeScript `Partial<Evidence>`). Carried opaquely: the
access layer forwards it verbatim, so we reuse the full record with the
fields it happens to hold. -/
structure RecommendationPatch where
  user_id : Option String := none
  intervention_id : Option Nat := none
  priority : Option Nat := none
deriving DecidableEq, Repr

/-- Partial User (TypeScript `Partial<User>`). -/
structure UserPatch where
  username : Option String := none
  email : Option String := none
  full_name : Option String := none
deriving DecidableEq, Repr

/-- Request bodies the resource modules send (typed, forwarded verbatim). -/
inductive BodyVal
  | interventionData (d : InterventionPatch)
  | evidenceData (e : Evidence)
  | recommendationData (d : RecommendationPatch)
  | registerData (d : RegisterRequest)
  | loginData (d : LoginRequest)
  | refreshTokenData (refresh_token : String)
  | userPatchData (d : UserPatch)
  | healthProfileData (d : HealthProfile)
deriving DecidableEq, Repr

/-- One HTTP request as handed to the axios client: the instance
configuration it goes through, the verb, the path string exactly as the
module built it (possibly already containing a query string), the `params`
option after axios serialisation, the optional body, and extra headers. -/
structure HttpRequest where
  config : AxiosConfig
  verb : Verb
  path : String
  params : List (String × String) := []
  body : Option BodyVal := none
  headers : List (String × String) := []
deriving DecidableEq, Repr

/-! Query-string semantics: how a server parses the query part of a request
URL. Used to state what parameters the server receives for the request paths
the modules build by string interpolation, and for the serialised `params`
option. Splitting is at ampersands, then at the first equals sign of each
segment; no percent-decoding is modelled. -/

/-- Split a character list at every occurrence of the character c. -/
def splitOnChar (c : Char) : List Char → List (List Char)
  | [] => [[]]
  | a :: as =>
    match splitOnChar c as with
    | [] => if a = c then [[], []] else [[a]]
    | h :: t => if a = c then [] :: h :: t else (a :: h) :: t

/-- Parse one key=value segment: the key is everything before the first
equals sign, the value everything after it (empty when there is none). -/
def parsePair (cs : List Char) : String × String :=
  (String.mk (cs.takeWhile (fun a => a ≠ '=')),
   String.mk ((cs.dropWhile (fun a => a ≠ '=')).drop 1))

/-- Parse a query string into its key/value pairs. -/
def parseQS (s : String) : List (String × String) :=
  if s.data = [] then [] else (splitOnChar '&' s.data).map parsePair

/-- The part of a path string after its first question mark (empty when the
path has none). -/
def queryOfPath (p : String) : String :=
  String.mk ((p.data.dropWhile (fun a => a ≠ '?')).drop 1)

/-- The part of a path string before its first question mark. -/
def pathnameOf (p : String) : String :=
  String.mk (p.data.takeWhile (fun a => a ≠ '?'))

/-- The query parameters the server receives for a request: those encoded in
the path string itself followed by those of the serialised `params` option
(the requests the modules build never use both at once). -/
def receivedParams (r : HttpRequest) : List (String × String) :=
  parseQS (queryOfPath r.path) ++ r.params

/-! The resource access modules (services/api.ts, services/auth.ts). Each
function is a single expression building one request on the shared client. -/

/-- Filter parameters accepted by interventionsApi.list. -/
structure ListParams where
  skip : Option Nat := none
  limit : Option Nat := none
  category : Option String := none
deriving DecidableEq, Repr

/-- Axios serialisation of the optional `params` object of
interventionsApi.list: keys with undefined values are omitted; keys appear
in declaration order (skip, limit, category); numbers render in decimal. -/
def serializeListParams : Option ListParams → List (String × String)
  | none => []
  | some p =>
    (match p.skip with | some n => [("skip", toString n)] | none => []) ++
    (match p.limit with | some n => [("limit", toString n)] | none => []) ++
    (match p.category with | some c => [("category", c)] | none => [])

/-- Axios serialisation of the optional skip/limit pagination object used by
evidenceApi.list and recommendationsApi.getUser. -/
def serializePageParams : Option (Option Nat × Option Nat) → List (String × String)
  | none => []
  | some (skip, limit) =>
    (match skip with | some n => [("skip", toString n)] | none => []) ++
    (match limit with | some n => [("limit", toString n)] | none => [])

namespace interventionsApi

/-- api.get('/interventions', { params }). -/
def list (params : Option ListParams) : HttpRequest :=
  { config := api, verb := .get, path := "/interventions",
    params := serializeListParams params }

/-- api.get(`/interventions/id`). -/
def get (id : Nat) : HttpRequest :=
  { config := api, verb := .get, path := "/interventions/" ++ toString id }

/-- api.post('/interventions', data). -/
def create (data : InterventionPatch) : HttpRequest :=
  { config := api, verb := .post, path := "/interventions",
    body := some (.interventionData data) }

/-- api.put(`/interventions/id`, data). -/
def update (id : Nat) (data : InterventionPatch) : HttpRequest :=
  { config := api, verb := .put, path := "/interventions/" ++ toString id,
    body := some (.interventionData data) }

/-- api.delete(`/interventions/id`). -/
def delete (id : Nat) : HttpRequest :=
  { config := api, verb := .delete, path := "/interventions/" ++ toString id }

/-- api.get(`/interventions/search/by-name?query=` + query): template
interpolation, no URL-encoding of the query string. -/
def search (query : String) : HttpRequest :=
  { config := api, verb := .get,
    path := "/interventions/search/by-name?query=" ++ query }

/-- api.get(`/interventions/by-evidence-level/level`). -/
def getByEvidenceLevel (level : Nat) : HttpRequest :=
  { config := api, verb := .get,
    path := "/interventions/by-evidence-level/" ++ toString level }

end interventionsApi

namespace evidenceApi

/-- api.get(`/evidence/intervention/id`, { params }). -/
def list (interventionId : Nat) (params : Option (Option Nat × Option Nat)) :
    HttpRequest :=
  { config := api, verb := .get,
    path := "/evidence/intervention/" ++ toString interventionId,
    params := serializePageParams params }

/-- api.get(`/evidence/id`). -/
def get (id : Nat) : HttpRequest :=
  { config := api, verb := .get, path := "/evidence/" ++ toString id }

/-- api.post('/evidence', data). -/
def create (data : Evidence) : HttpRequest :=
  { config := api, verb := .post, path := "/evidence",
    body := some (.evidenceData data) }

/-- api.get(`/evidence/by-quality?min_quality=` + minQuality). -/
def getByQuality (minQuality : Nat) : HttpRequest :=
  { config := api, verb := .get,
    path := "/evidence/by-quality?min_quality=" ++ toString minQuality }

/-- api.get('/evidence/meta-analyses'). -/
def getMetaAnalyses : HttpRequest :=
  { config := api, verb := .get, path := "/evidence/meta-analyses" }

/-- api.get('/evidence/randomized-trials'). -/
def getRandomizedTrials : HttpRequest :=
  { config := api, verb := .get, path := "/evidence/randomized-trials" }

end evidenceApi

namespace recommendationsApi

/-- api.post('/recommendations', data). -/
def create (data : RecommendationPatch) : HttpRequest :=
  { config := api, verb := .post, path := "/recommendations",
    body := some (.recommendationData data) }

/-- api.get(`/recommendations/user/userId`, { params }). -/
def getUser (userId : String) (params : Option (Option Nat × Option Nat)) :
    HttpRequest :=
  { config := api, verb := .get,
    path := "/recommendations/user/" ++ userId,
    params := serializePageParams params }

/-- api.get(`/recommendations/id`). -/
def get (id : Nat) : HttpRequest :=
  { config := api, verb := .get, path := "/recommendations/" ++ toString id }

/-- api.get(`/recommendations/top-interventions?limit=` + limit), with the
declared default limit = 10. -/
def getTopInterventions (limit : Nat := 10) : HttpRequest :=
  { config := api, verb := .get,
    path := "/recommendations/top-interventions?limit=" ++ toString limit }

end recommendationsApi

/-- Bearer-token Authorization header attached by the authenticated calls. -/
def bearer (token : String) : List (String × String) :=
  [("Authorization", "Bearer " ++ token)]

namespace authApi

/-- api.post('/auth/register', data). -/
def register (data : RegisterRequest) : HttpRequest :=
  { config := api, verb := .post, path := "/auth/register",
    body := some (.registerData data) }

/-- api.post('/auth/login', data). -/
def login (data : LoginRequest) : HttpRequest :=
  { config := api, verb := .post, path := "/auth/login",
    body := some (.loginData data) }

/-- api.post('/auth/logout', { refresh_token }). -/
def logout (refreshToken : String) : HttpRequest :=
  { config := api, verb := .post, path := "/auth/logout",
    body := some (.refreshTokenData refreshToken) }

/-- api.post('/auth/refresh', { refresh_token }). -/
def refreshToken (refreshToken : String) : HttpRequest :=
  { config := api, verb := .post, path := "/auth/refresh",
    body := some (.refreshTokenData refreshToken) }

/-- api.get('/auth/me', { headers: bearer }). -/
def getCurrentUser (token : String) : HttpRequest :=
  { config := api, verb := .get, path := "/auth/me", headers := bearer token }

/-- api.put('/auth/me', data, { headers: bearer }). -/
def updateCurrentUser (token : String) (data : UserPatch) : HttpRequest :=
  { config := api, verb := .put, path := "/auth/me",
    body := some (.userPatchData data), headers := bearer token }

/-- api.post('/auth/health-profile', data, { headers: bearer }). -/
def createHealthProfile (token : String) (data : HealthProfile) : HttpRequest :=
  { config := api, verb := .post, path := "/auth/health-profile",
    body := some (.healthProfileData data), headers := bearer token }

/-- api.put('/auth/health-profile', data, { headers: bearer }). -/
def updateHealthProfile (token : String) (data : HealthProfile) : HttpRequest :=
  { config := api, verb := .put, path := "/auth/health-profile",
    body := some (.healthProfileData data), headers := bearer token }

/-- api.get('/auth/health-profile', { headers: bearer }). -/
def getHealthProfile (token : String) : HttpRequest :=
  { config := api, verb := .get, path := "/auth/health-profile",
    headers := bearer token }

end authApi

/-! Runtime model: each module function is straight-line code that builds one
request and returns the client promise for it, with no catch, retry or cache.
The network is an oracle from requests to outcomes. -/

/-- One call into the access layer: a constructor per module function, with
that function's typed arguments. -/
inductive ApiCall
  | interventionsList (params : Option ListParams)
  | interventionsGet (id : Nat)
  | interventionsCreate (data : InterventionPatch)
  | interventionsUpdate (id : Nat) (data : InterventionPatch)
  | interventionsDelete (id : Nat)
  | interventionsSearch (query : String)
  | interventionsGetByEvidenceLevel (level : Nat)
  | evidenceList (interventionId : Nat) (params : Option (Option Nat × Option Nat))
  | evidenceGet (id : Nat)
  | evidenceCreate (data : Evidence)
  | evidenceGetByQuality (minQuality : Nat)
  | evidenceGetMetaAnalyses
  | evidenceGetRandomizedTrials
  | recommendationsCreate (data : RecommendationPatch)
  | recommendationsGetUser (userId : String) (params : Option (Option Nat × Option Nat))
  | recommendationsGet (id : Nat)
  | recommendationsGetTopInterventions (limit : Nat)
  | authRegister (data : RegisterRequest)
  | authLogin (data : LoginRequest)
  | authLogout (refreshToken : String)
  | authRefreshToken (refreshToken : String)
  | authGetCurrentUser (token : String)
  | authUpdateCurrentUser (token : String) (data : UserPatch)
  | authCreateHealthProfile (token : String) (data : HealthProfile)
  | authUpdateHealthProfile (token : String) (data : HealthProfile)
  | authGetHealthProfile (token : String)

/-- The single request each module function hands to the shared client. -/
def requestOf : ApiCall → HttpRequest
  | .interventionsList params => interventionsApi.list params
  | .interventionsGet id => interventionsApi.get id
  | .interventionsCreate data => interventionsApi.create data
  | .interventionsUpdate id data => interventionsApi.update id data
  | .interventionsDelete id => interventionsApi.delete id
  | .interventionsSearch query => interventionsApi.search query
  | .interventionsGetByEvidenceLevel level => interventionsApi.getByEvidenceLevel level
  | .evidenceList i params => evidenceApi.list i params
  | .evidenceGet id => evidenceApi.get id
  | .evidenceCreate data => evidenceApi.create data
  | .evidenceGetByQuality q => evidenceApi.getByQuality q
  | .evidenceGetMetaAnalyses => evidenceApi.getMetaAnalyses
  | .evidenceGetRandomizedTrials => evidenceApi.getRandomizedTrials
  | .recommendationsCreate data => recommendationsApi.create data
  | .recommendationsGetUser u params => recommendationsApi.getUser u params
  | .recommendationsGet id => recommendationsApi.get id
  | .recommendationsGetTopInterventions l => recommendationsApi.getTopInterventions l
  | .authRegister data => authApi.register data
  | .authLogin data => authApi.login data
  | .authLogout t => authApi.logout t
  | .authRefreshToken t => authApi.refreshToken t
  | .authGetCurrentUser t => authApi.getCurrentUser t
  | .authUpdateCurrentUser t data => authApi.updateCurrentUser t data
  | .authCreateHealthProfile t data => authApi.createHealthProfile t data
  | .authUpdateHealthProfile t data => authApi.updateHealthProfile t data
  | .authGetHealthProfile t => authApi.getHealthProfile t

/-- Error an axios promise rejects with: the HTTP status when a response
arrived (none on transport failure) and the optional detail field of the
response body. -/
structure ApiError where
  status : Option Nat := none
  detail : Option String := none
deriving DecidableEq, Repr

/-- The requests a module function sends for one invocation: exactly the one
it builds (no retry). -/
def requestsSent (c : ApiCall) : List HttpRequest :=
  [requestOf c]

/-- Running a module function against a network oracle: the function returns
the client promise unchanged — there is no catch, so the outcome is the
oracle's outcome on the one declared request. -/
def runCall {R : Type} (net : HttpRequest → Except ApiError R) (c : ApiCall) :
    Except ApiError R :=
  net (requestOf c)

/-! Page-component handlers referenced by the verified properties. -/

/-- JavaScript truthiness-or on an optional string (the pattern
`x || fallback`): the fallback is used when the string is absent or empty. -/
def jsOr (a : Option String) (fallback : String) : String :=
  match a with
  | some s => if s = "" then fallback else s
  | none => fallback

/-- localStorage.setItem semantics on an association-list store. -/
def setItem (st : List (String × String)) (k v : String) : List (String × String) :=
  if st.any (fun p => p.1 = k) then
    st.map (fun p => if p.1 = k then (k, v) else p)
  else st ++ [(k, v)]

/-- View state of the login page relevant to the verified property. -/
structure LoginModel where
  error : String := ""
  storage : List (String × String) := []
  navigatedTo : Option String := none
  loading : Bool := false
deriving DecidableEq, Repr

/-- LoginPage.handleSubmit after the login promise settles: on success store
both tokens in localStorage and navigate home; on rejection set the error to
the response detail when truthy, else the generic fallback, touching neither
localStorage nor navigation. -/
def handleLoginSubmit (outcome : Except ApiError Token) (m : LoginModel) :
    LoginModel :=
  let m1 := { m with error := "", loading := true }
  match outcome with
  | .ok t =>
    { m1 with
      storage := setItem (setItem m1.storage "access_token" t.access_token)
        "refresh_token" t.refresh_token,
      navigatedTo := some "/", loading := false }
  | .error e =>
    { m1 with error := jsOr e.detail "登录失败", loading := false }

/-- View state of the intervention detail page. -/
structure DetailState where
  intervention : Option Intervention := none
  evidence : List Evidence := []
  loading : Bool := true
  logged : Bool := false
deriving DecidableEq, Repr

/-- State of the detail page on mount. -/
def initialDetailState : DetailState := {}

/-- Promise.all on two promises: ok iff both are ok, else the rejection. -/
def promiseAll2 {E A B : Type} : Except E A → Except E B → Except E (A × B)
  | .ok a, .ok b => .ok (a, b)
  | .error e, _ => .error e
  | .ok _, .error e => .error e

/-- The two requests InterventionDetail.loadData issues together. -/
def detailRequests (interventionId : Nat) : HttpRequest × HttpRequest :=
  (interventionsApi.get interventionId, evidenceApi.list interventionId none)

/-- InterventionDetail.loadData: join the intervention fetch and the
evidence fetch with Promise.all; on joint success apply both payloads; on
rejection of either, log and apply neither; clear loading either way. -/
def loadData (rIntervention : Except ApiError Intervention)
    (rEvidence : Except ApiError (List Evidence)) (st : DetailState) :
    DetailState :=
  let st1 := { st with loading := true }
  match promiseAll2 rIntervention rEvidence with
  | .ok (i, es) =>
    { st1 with intervention := some i, evidence := es, loading := false }
  | .error _ =>
    { st1 with logged := true, loading := false }

/-- The detail view renders the intervention section when not loading and an
intervention is present (else it shows the loading or not-found screen). -/
def rendersInterventionSection (st : DetailState) : Bool :=
  !st.loading && st.intervention.isSome

/-- The evidence section is part of the same returned markup as the
intervention section, so it renders under exactly the same guards. -/
def rendersEvidenceSection (st : DetailState) : Bool :=
  !st.loading && st.intervention.isSome

/-- Truthiness of an optional string (empty string is falsy). -/
def truthyOptStr : Option String → Bool
  | none => false
  | some s => s != ""

/-- Truthiness of an optional natural number (zero is falsy). -/
def truthyOptNat : Option Nat → Bool
  | none => false
  | some n => n != 0

/-- Truthiness of an optional rational (zero is falsy). -/
def truthyOptRat : Option Rat → Bool
  | none => false
  | some q => q != 0

/-- Which optional fields of one evidence item the detail view displays. -/
structure EvidenceItemView where
  shows_source_type : Bool
  shows_citation : Bool
  shows_sample_size : Bool
  shows_duration_days : Bool
  shows_quality_score : Bool
deriving DecidableEq, Repr

/-- The truthiness guards of the evidence-item markup: each optional field
is rendered behind a bare `value &&` guard. -/
def renderEvidenceItem (e : Evidence) : EvidenceItemView :=
  { shows_source_type := truthyOptStr e.source_type,
    shows_citation := truthyOptStr e.citation,
    shows_sample_size := truthyOptNat e.sample_size,
    shows_duration_days := truthyOptNat e.duration_days,
    shows_quality_score := truthyOptRat e.quality_score }

/-- View state of the register page relevant to the verified property. -/
structure RegisterModel where
  error : String := ""
  navigatedTo : Option String := none
  loading : Bool := false
deriving DecidableEq, Repr

/-- Result of one register-form submission: the new view state, and whether
this submission reached authApi.register (issued the network request). -/
structure RegisterSubmitResult where
  model : RegisterModel
  registerCalled : Bool
deriving DecidableEq, Repr

/-- RegisterPage.handleSubmit: clear the error; reject locally (no request,
no navigation) when the password differs from the confirmation or is shorter
than 8 characters; otherwise call authApi.register and either navigate to
the login page or surface the response detail. -/
def handleRegisterSubmit (formData : RegisterRequest) (confirmPassword : String)
    (outcome : Except ApiError User) (m : RegisterModel) : RegisterSubmitResult :=
  let m1 := { m with error := "" }
  if formData.password ≠ confirmPassword then
    { model := { m1 with error := "两次输入的密码不一致" }, registerCalled := false }
  else if formData.password.length < 8 then
    { model := { m1 with error := "密码长度至少为8位" }, registerCalled := false }
  else
    match outcome with
    | .ok _ =>
      { model := { m1 with navigatedTo := some "/login", loading := false },
        registerCalled := true }
    | .error e =>
      { model := { m1 with error := jsOr e.detail "注册失败", loading := false },
        registerCalled := true }

/-- The confidence-interval invariant on evidence: when an effect size is
present, its interval satisfies low ≤ value and value ≤ high. -/
def ciInvariant (e : Evidence) : Bool :=
  match e.effect_size with
  | none => true
  | some es => decide (es.ci_95.1 ≤ es.value) && decide (es.value ≤ es.ci_95.2)

/-! Supporting lemmas about the query-string semantics and about decimal
rendering of numbers (the interpolated paths embed numbers via toString). -/

theorem digitChar_ne_amp (n : Nat) : Nat.digitChar n ≠ '&' := by
  by_cases h0 : n = 0
  · subst h0; decide
  by_cases h1 : n = 1
  · subst h1; decide
  by_cases h2 : n = 2
  · subst h2; decide
  by_cases h3 : n = 3
  · subst h3; decide
  by_cases h4 : n = 4
  · subst h4; decide
  by_cases h5 : n = 5
  · subst h5; decide
  by_cases h6 : n = 6
  · subst h6; decide
  by_cases h7 : n = 7
  · subst h7; decide
  by_cases h8 : n = 8
  · subst h8; decide
  by_cases h9 : n = 9
  · subst h9; decide
  by_cases h10 : n = 10
  · subst h10; decide
  by_cases h11 : n = 11
  · subst h11; decide
  by_cases h12 : n = 12
  · subst h12; decide
  by_cases h13 : n = 13
  · subst h13; decide
  by_cases h14 : n = 14
  · subst h14; decide
  by_cases h15 : n = 15
  · subst h15; decide
  unfold Nat.digitChar
  rw [if_neg h0, if_neg h1, if_neg h2, if_neg h3, if_neg h4, if_neg h5,
    if_neg h6, if_neg h7, if_neg h8, if_neg h9, if_neg h10, if_neg h11,
    if_neg h12, if_neg h13, if_neg h14, if_neg h15]
  decide

theorem toDigitsCore_ne_amp :
    ∀ (fuel n : Nat) (ds : List Char), (∀ c ∈ ds, c ≠ '&') →
      ∀ c ∈ Nat.toDigitsCore 10 fuel n ds, c ≠ '&' := by
  intro fuel
  induction fuel with
  | zero =>
    intro n ds h
    simpa [Nat.toDigitsCore] using h
  | succ f ih =>
    intro n ds h c hc
    simp only [Nat.toDigitsCore] at hc
    split at hc
    · rcases List.mem_cons.mp hc with h1 | h1
      · subst h1; exact digitChar_ne_amp _
      · exact h c h1
    · refine ih (n / 10) _ ?_ c hc
      intro x hx
      rcases List.mem_cons.mp hx with h1 | h1
      · subst h1; exact digitChar_ne_amp _
      · exact h x h1

theorem toString_nat_ne_amp (n : Nat) : ∀ c ∈ (toString n).data, c ≠ '&' := by
  intro c hc
  exact toDigitsCore_ne_amp (n + 1) n [] (by intro x hx; cases hx) c hc

theorem takeWhile_append_stop (p : Char → Bool) (s : Char) (hs : p s = false) :
    ∀ (l1 l2 : List Char), (∀ a ∈ l1, p a = true) →
      (l1 ++ s :: l2).takeWhile p = l1 := by
  intro l1
  induction l1 with
  | nil => intro l2 h; simp [List.takeWhile_cons, hs]
  | cons a as ih =>
    intro l2 h
    simp only [List.cons_append, List.takeWhile_cons, h a (by simp), if_true]
    rw [ih l2 (fun x hx => h x (by simp [hx]))]

theorem dropWhile_append_stop (p : Char → Bool) (s : Char) (hs : p s = false) :
    ∀ (l1 l2 : List Char), (∀ a ∈ l1, p a = true) →
      (l1 ++ s :: l2).dropWhile p = s :: l2 := by
  intro l1
  induction l1 with
  | nil => intro l2 h; simp [List.dropWhile_cons, hs]
  | cons a as ih =>
    intro l2 h
    simp only [List.cons_append, List.dropWhile_cons, h a (by simp), if_true]
    exact ih l2 (fun x hx => h x (by simp [hx]))

theorem splitOnChar_eq_single (s : Char) :
    ∀ (l : List Char), (∀ a ∈ l, a ≠ s) → splitOnChar s l = [l] := by
  intro l
  induction l with
  | nil => intro; rfl
  | cons a as ih =>
    intro h
    have ha : a ≠ s := h a (by simp)
    have has : splitOnChar s as = [as] := ih (fun x hx => h x (by simp [hx]))
    simp [splitOnChar, has, ha]

theorem parsePair_keyval (kl v : List Char) (hk : ∀ c ∈ kl, c ≠ '=') :
    parsePair (kl ++ '=' :: v) = (String.mk kl, String.mk v) := by
  unfold parsePair
  rw [takeWhile_append_stop (fun a => a ≠ '=') '=' (by decide) kl v
      (fun c hc => decide_eq_true (hk c hc)),
    dropWhile_append_stop (fun a => a ≠ '=') '=' (by decide) kl v
      (fun c hc => decide_eq_true (hk c hc))]
  simp

theorem parseQS_keyval (kl v : List Char) (hk : ∀ c ∈ kl, c ≠ '&' ∧ c ≠ '=')
    (hv : ∀ c ∈ v, c ≠ '&') :
    parseQS (String.mk (kl ++ '=' :: v)) = [(String.mk kl, String.mk v)] := by
  have hne : kl ++ '=' :: v ≠ [] := by cases kl <;> simp
  have hamp : ∀ a ∈ kl ++ '=' :: v, a ≠ '&' := by
    intro a ha
    rcases List.mem_append.mp ha with h1 | h1
    · exact (hk a h1).1
    · rcases List.mem_cons.mp h1 with h2 | h2
      · subst h2; decide
      · exact hv a h2
  unfold parseQS
  rw [show (String.mk (kl ++ '=' :: v)).data = kl ++ '=' :: v from rfl,
    if_neg hne, splitOnChar_eq_single '&' _ hamp, List.map_singleton,
    parsePair_keyval kl v (fun c hc => (hk c hc).2)]

theorem queryOfPath_concat (pre rest : List Char) (h : ∀ a ∈ pre, a ≠ '?') :
    queryOfPath (String.mk (pre ++ '?' :: rest)) = String.mk rest := by
  unfold queryOfPath
  rw [show (String.mk (pre ++ '?' :: rest)).data = pre ++ '?' :: rest from rfl,
    dropWhile_append_stop (fun a => a ≠ '?') '?' (by decide) pre rest
      (fun c hc => decide_eq_true (h c hc))]
  simp

theorem pathnameOf_concat (pre rest : List Char) (h : ∀ a ∈ pre, a ≠ '?') :
    pathnameOf (String.mk (pre ++ '?' :: rest)) = String.mk pre := by
  unfold pathnameOf
  rw [show (String.mk (pre ++ '?' :: rest)).data = pre ++ '?' :: rest from rfl,
    takeWhile_append_stop (fun a => a ≠ '?') '?' (by decide) pre rest
      (fun c hc => decide_eq_true (h c hc))]

theorem getTopInterventions_path_decomp (n : Nat) :
    (recommendationsApi.getTopInterventions n).path
      = String.mk ("/recommendations/top-interventions".data
          ++ '?' :: ("limit".data ++ '=' :: (toString n).data)) := by
  apply String.ext
  show ("/recommendations/top-interventions?limit=" ++ toString n).data = _
  rw [String.data_append]
  rw [show "/recommendations/top-interventions?limit=".data
      = "/recommendations/top-interventions".data ++ '?' :: ("limit".data ++ ['=']) from rfl]
  simp [List.append_assoc]

theorem getTopInterventions_received (n : Nat) :
    receivedParams (recommendationsApi.getTopInterventions n) = [("limit", toString n)] := by
  unfold receivedParams
  rw [getTopInterventions_path_decomp n,
    show (recommendationsApi.getTopInterventions n).params = [] from rfl,
    queryOfPath_concat _ _ (by decide),
    parseQS_keyval "limit".data (toString n).data (by decide) (toString_nat_ne_amp n)]
  show [((⟨"limit".data⟩ : String), (⟨(toString n).data⟩ : String))] ++ [] = _
  rfl

theorem search_path_decomp (q : String) :
    (interventionsApi.search q).path
      = String.mk ("/interventions/search/by-name".data
          ++ '?' :: ("query".data ++ '=' :: q.data)) := by
  apply String.ext
  show ("/interventions/search/by-name?query=" ++ q).data = _
  rw [String.data_append]
  rw [show "/interventions/search/by-name?query=".data
      = "/interventions/search/by-name".data ++ '?' :: ("query".data ++ ['=']) from rfl]
  simp [List.append_assoc]

/-- The fallback strings used by the form handlers are never empty, so an
error message is always displayed on the failure path. -/
theorem jsOr_ne_empty (a : Option String) (fb : String) (h : fb ≠ "") :
    jsOr a fb ≠ "" := by
  unfold jsOr
  cases a with
  | none => exact h
  | some s =>
    show (if s = "" then fb else s) ≠ ""
    by_cases hs : s = ""
    · rw [if_pos hs]; exact h
    · rw [if_neg hs]; exact hs

theorem jsOr_some_of_ne (d fb : String) (h : d ≠ "") : jsOr (some d) fb = d := by
  show (if d = "" then fb else d) = d
  rw [if_neg h]

theorem jsOr_none (fb : String) : jsOr none fb = fb := rfl

/-! Claim theorems. -/

/-- C1: interventionsApi.list issues a GET to /interventions whose query
contains exactly the caller-provided skip/limit/category parameters with
their values unchanged and nothing else; with no argument it sends no query
parameters. -/
theorem interventions_list_forwards_exact_params :
    ((interventionsApi.list none).params = [] ∧
      (interventionsApi.list none).verb = Verb.get ∧
      (interventionsApi.list none).path = "/interventions") ∧
    ∀ p : ListParams, (interventionsApi.list (some p)).verb = Verb.get ∧
      (interventionsApi.list (some p)).path = "/interventions" ∧
      ∀ k v : String, ((k, v) ∈ (interventionsApi.list (some p)).params ↔
        (k = "skip" ∧ ∃ n, p.skip = some n ∧ v = toString n) ∨
        (k = "limit" ∧ ∃ n, p.limit = some n ∧ v = toString n) ∨
        (k = "category" ∧ p.category = some v)) := by
  refine ⟨⟨rfl, rfl, rfl⟩, ?_⟩
  rintro ⟨s, l, c⟩
  refine ⟨rfl, rfl, ?_⟩
  intro k v
  cases s <;> cases l <;> cases c <;>
    simp [interventionsApi.list, serializeListParams, and_assoc] <;>
    aesop

/-- Witness for C1: a category-only filter forwards exactly that one
parameter with its value unchanged. -/
theorem interventions_list_forwards_exact_params_witness :
    ("category", "sleep") ∈
      (interventionsApi.list (some { category := some "sleep" })).params :=
  ((interventions_list_forwards_exact_params.2
      { category := some "sleep" }).2.2 "category" "sleep").mpr
    (Or.inr (Or.inr ⟨rfl, rfl⟩))

/-- C2: recommendationsApi.getTopInterventions with no argument issues a GET
to /recommendations/top-interventions with query parameter limit=10, and with
an explicit limit n the same request with limit=n. -/
theorem getTopInterventions_requests_limit :
    ((recommendationsApi.getTopInterventions).verb = Verb.get ∧
      pathnameOf (recommendationsApi.getTopInterventions).path
        = "/recommendations/top-interventions" ∧
      receivedParams (recommendationsApi.getTopInterventions)
        = [("limit", "10")]) ∧
    ∀ n : Nat, (recommendationsApi.getTopInterventions n).verb = Verb.get ∧
      pathnameOf (recommendationsApi.getTopInterventions n).path
        = "/recommendations/top-interventions" ∧
      receivedParams (recommendationsApi.getTopInterventions n)
        = [("limit", toString n)] := by
  refine ⟨⟨rfl, by decide, by decide⟩, ?_⟩
  intro n
  refine ⟨rfl, ?_, getTopInterventions_received n⟩
  rw [getTopInterventions_path_decomp n, pathnameOf_concat _ _ (by decide)]

/-- Witness for C2: the explicit call with limit 5 requests limit=5. -/
theorem getTopInterventions_requests_limit_witness :
    receivedParams (recommendationsApi.getTopInterventions 5)
      = [("limit", "5")] :=
  (getTopInterventions_requests_limit.2 5).2.2

/-- C3: every resource-module function maps its typed arguments to exactly
one declared HTTP request and never catches: when the client rejects that
request, the module's result is the same rejection unchanged. -/
theorem resource_modules_propagate_rejections {R : Type}
    (net : HttpRequest → Except ApiError R) (c : ApiCall) (e : ApiError)
    (h : net (requestOf c) = Except.error e) :
    runCall net c = Except.error e ∧ requestsSent c = [requestOf c] :=
  ⟨h, rfl⟩

/-- Witness for C3: a rejected intervention fetch propagates the rejection
unchanged to the caller. -/
theorem resource_modules_propagate_rejections_witness :
    runCall
        (fun _ => (Except.error { status := some 500, detail := some "boom" } :
          Except ApiError Unit))
        (ApiCall.interventionsGet 1)
      = Except.error { status := some 500, detail := some "boom" } ∧
    requestsSent (ApiCall.interventionsGet 1)
      = [requestOf (ApiCall.interventionsGet 1)] :=
  resource_modules_propagate_rejections
    (fun _ => Except.error { status := some 500, detail := some "boom" })
    (ApiCall.interventionsGet 1) { status := some 500, detail := some "boom" } rfl

/-- C4: every resource-module function routes its request through the one
shared client, which carries base path /api/v1 and a 10,000 ms timeout. -/
theorem single_shared_client (c : ApiCall) :
    (requestOf c).config = api ∧ api.baseURL = "/api/v1" ∧
      api.timeout = 10000 :=
  ⟨by cases c <;> rfl, rfl, rfl⟩

/-- Witness for C4: an auth login request goes through the shared client. -/
theorem single_shared_client_witness :
    (requestOf (ApiCall.authLogin { username := "u", password := "p" })).config
        = api ∧
      api.baseURL = "/api/v1" ∧ api.timeout = 10000 :=
  single_shared_client (ApiCall.authLogin { username := "u", password := "p" })

/-- C5: when the login promise rejects with HTTP 401, the login form shows an
error message (the response detail when present, else the generic fallback)
and leaves localStorage untouched; it also does not navigate. -/
theorem login_401_displays_error_and_keeps_storage (e : ApiError)
    (m : LoginModel) (h : e.status = some 401) :
    (handleLoginSubmit (Except.error e) m).storage = m.storage ∧
    (handleLoginSubmit (Except.error e) m).navigatedTo = m.navigatedTo ∧
    (handleLoginSubmit (Except.error e) m).error ≠ "" ∧
    (∀ d, e.detail = some d → d ≠ "" →
      (handleLoginSubmit (Except.error e) m).error = d) ∧
    (e.detail = none →
      (handleLoginSubmit (Except.error e) m).error = "登录失败") := by
  refine ⟨rfl, rfl, ?_, ?_, ?_⟩
  · show jsOr e.detail "登录失败" ≠ ""
    exact jsOr_ne_empty _ _ (by decide)
  · intro d hd hdne
    show jsOr e.detail "登录失败" = d
    rw [hd]
    exact jsOr_some_of_ne d _ hdne
  · intro hd
    show jsOr e.detail "登录失败" = "登录失败"
    rw [hd, jsOr_none]

/-- Witness for C5: a 401 rejection carrying a detail message leaves an empty
store empty and surfaces the detail. -/
theorem login_401_displays_error_and_keeps_storage_witness :
    (handleLoginSubmit
        (Except.error { status := some 401, detail := some "Invalid credentials" })
        {}).storage = ({} : LoginModel).storage ∧
    (handleLoginSubmit
        (Except.error { status := some 401, detail := some "Invalid credentials" })
        {}).error = "Invalid credentials" :=
  ⟨(login_401_displays_error_and_keeps_storage
      { status := some 401, detail := some "Invalid credentials" } {} rfl).1,
   (login_401_displays_error_and_keeps_storage
      { status := some 401, detail := some "Invalid credentials" } {} rfl).2.2.2.1
     "Invalid credentials" rfl (by decide)⟩

/-- C6: the detail view joins the intervention fetch and the evidence fetch:
on joint success it applies both payloads and renders both sections; on
failure of either it applies neither (renders neither section on a fresh
load) and logs the failure. -/
theorem detail_view_joins_fetches (rI : Except ApiError Intervention)
    (rE : Except ApiError (List Evidence)) :
    (∀ i es, rI = Except.ok i → rE = Except.ok es →
      (loadData rI rE initialDetailState).intervention = some i ∧
      (loadData rI rE initialDetailState).evidence = es ∧
      rendersInterventionSection (loadData rI rE initialDetailState) = true ∧
      rendersEvidenceSection (loadData rI rE initialDetailState) = true ∧
      (loadData rI rE initialDetailState).logged = false) ∧
    (((∃ e, rI = Except.error e) ∨ (∃ e, rE = Except.error e)) →
      (loadData rI rE initialDetailState).intervention = none ∧
      (loadData rI rE initialDetailState).evidence = [] ∧
      rendersInterventionSection (loadData rI rE initialDetailState) = false ∧
      rendersEvidenceSection (loadData rI rE initialDetailState) = false ∧
      (loadData rI rE initialDetailState).logged = true) := by
  cases rI <;> cases rE <;>
    simp [loadData, promiseAll2, initialDetailState,
      rendersInterventionSection, rendersEvidenceSection]

/-- Sample intervention record used by concrete witnesses. -/
def sampleIntervention : Intervention :=
  { id := 1, name := "发酵食品", category := "nutrition", evidence_level := 2,
    created_at := "2024-01-01", updated_at := "2024-01-01" }

/-- Witness for C6: both sections render after a joint success; neither
renders and the failure is logged when the intervention fetch rejects. -/
theorem detail_view_joins_fetches_witness :
    (loadData (Except.ok sampleIntervention) (Except.ok [])
        initialDetailState).intervention = some sampleIntervention ∧
    rendersEvidenceSection
        (loadData (Except.ok sampleIntervention) (Except.ok [])
          initialDetailState) = true ∧
    rendersInterventionSection
        (loadData (Except.error { status := some 500 }) (Except.ok [])
          initialDetailState) = false ∧
    (loadData (Except.error { status := some 500 }) (Except.ok [])
        initialDetailState).logged = true :=
  ⟨((detail_view_joins_fetches _ _).1 sampleIntervention [] rfl rfl).1,
   ((detail_view_joins_fetches _ _).1 sampleIntervention [] rfl rfl).2.2.2.1,
   ((detail_view_joins_fetches _ _).2
      (Or.inl ⟨{ status := some 500 }, rfl⟩)).2.2.1,
   ((detail_view_joins_fetches _ _).2
      (Or.inl ⟨{ status := some 500 }, rfl⟩)).2.2.2.2⟩

/-- Counterexample for C7: the search query is interpolated into the path
with no URL-encoding, so for the query string a&b the server receives two
parameters, query=a and a stray b, not a single parameter equal to a&b. -/
theorem search_raw_interpolation_cex :
    receivedParams (interventionsApi.search "a&b")
        = [("query", "a"), ("b", "")] ∧
    receivedParams (interventionsApi.search "a&b") ≠ [("query", "a&b")] := by
  constructor
  · decide
  · decide

/-- C7 (amended): interventionsApi.search q issues a GET whose pathname is
/interventions/search/by-name and whose single received parameter is
query=q, provided the raw interpolated q contains no ampersand; the client
applies no URL-encoding. -/
theorem search_sends_query_param_when_no_amp (q : String)
    (h : ∀ c ∈ q.data, c ≠ '&') :
    (interventionsApi.search q).verb = Verb.get ∧
    pathnameOf (interventionsApi.search q).path
      = "/interventions/search/by-name" ∧
    receivedParams (interventionsApi.search q) = [("query", q)] := by
  refine ⟨rfl, ?_, ?_⟩
  · rw [search_path_decomp q, pathnameOf_concat _ _ (by decide)]
  · unfold receivedParams
    rw [search_path_decomp q,
      show (interventionsApi.search q).params = [] from rfl,
      queryOfPath_concat _ _ (by decide),
      parseQS_keyval "query".data q.data (by decide) h]
    show [((⟨"query".data⟩ : String), (⟨q.data⟩ : String))] ++ [] = _
    rfl

/-- Witness for C7 (amended): an ampersand-free query reaches the server as
the single parameter query with its value unchanged. -/
theorem search_sends_query_param_when_no_amp_witness :
    receivedParams (interventionsApi.search "metformin")
      = [("query", "metformin")] :=
  (search_sends_query_param_when_no_amp "metformin" (by decide)).2.2

/-- An evidence record whose confidence interval does not contain its effect
size value: low = 10, value = 5, high = 20. -/
def badEvidence : Evidence :=
  { id := 1, intervention_id := 1,
    effect_size := some { metric := "hazard ratio", value := 5, ci_95 := (10, 20) } }

/-- Counterexample for C8: the access layer accepts evidence whose interval
violates low ≤ value — evidenceApi.create forwards it verbatim, so the
invariant does not hold of all evidence accepted through the layer. -/
theorem ci_invariant_not_enforced_cex :
    ciInvariant badEvidence = false ∧
    (evidenceApi.create badEvidence).body
      = some (BodyVal.evidenceData badEvidence) := by
  constructor
  · decide
  · rfl

/-- C8 (amended): low ≤ value ≤ high is a property the evidence data should
satisfy, not one the client enforces: the access layer forwards every
Evidence record unchanged in a POST /evidence, whether or not the record
satisfies the confidence-interval invariant. -/
theorem access_layer_accepts_any_evidence (e : Evidence) :
    (evidenceApi.create e).body = some (BodyVal.evidenceData e) ∧
    (evidenceApi.create e).verb = Verb.post ∧
    (evidenceApi.create e).path = "/evidence" ∧
    (ciInvariant e = true ∨ ciInvariant e = false) :=
  ⟨rfl, rfl, rfl, Bool.eq_false_or_eq_true (ciInvariant e)⟩

/-- Witness for C8 (amended): the invariant-violating record itself is
forwarded unchanged. -/
theorem access_layer_accepts_any_evidence_witness :
    (evidenceApi.create badEvidence).body
      = some (BodyVal.evidenceData badEvidence) :=
  (access_layer_accepts_any_evidence badEvidence).1

/-- C9: a register submission whose password differs from the confirmation,
or is shorter than 8 characters, never reaches authApi.register, shows a
local error message, and does not navigate. -/
theorem register_validation_blocks_request (fd : RegisterRequest) (cp : String)
    (outcome : Except ApiError User) (m : RegisterModel)
    (h : fd.password ≠ cp ∨ fd.password.length < 8) :
    (handleRegisterSubmit fd cp outcome m).registerCalled = false ∧
    (handleRegisterSubmit fd cp outcome m).model.navigatedTo = m.navigatedTo ∧
    (handleRegisterSubmit fd cp outcome m).model.error ≠ "" ∧
    ((handleRegisterSubmit fd cp outcome m).model.error = "两次输入的密码不一致" ∨
      (handleRegisterSubmit fd cp outcome m).model.error = "密码长度至少为8位") := by
  unfold handleRegisterSubmit
  by_cases h1 : fd.password ≠ cp
  · rw [if_pos h1]
    exact ⟨rfl, rfl, (by decide : ("两次输入的密码不一致" : String) ≠ ""), Or.inl rfl⟩
  · rw [if_neg h1]
    have h2 : fd.password.length < 8 := by
      rcases h with h | h
      · exact absurd h h1
      · exact h
    rw [if_pos h2]
    exact ⟨rfl, rfl, (by decide : ("密码长度至少为8位" : String) ≠ ""), Or.inr rfl⟩

/-- Witness for C9: a 5-character password is rejected locally with an error
and no register call. -/
theorem register_validation_blocks_request_witness :
    (handleRegisterSubmit
        { username := "u", email := "u@example.com", password := "short" }
        "short" (Except.error {}) {}).registerCalled = false ∧
    (handleRegisterSubmit
        { username := "u", email := "u@example.com", password := "short" }
        "short" (Except.error {}) {}).model.navigatedTo
      = ({} : RegisterModel).navigatedTo :=
  ⟨(register_validation_blocks_request
      { username := "u", email := "u@example.com", password := "short" }
      "short" (Except.error {}) {} (Or.inr (by decide))).1,
   (register_validation_blocks_request
      { username := "u", email := "u@example.com", password := "short" }
      "short" (Except.error {}) {} (Or.inr (by decide))).2.1⟩

/-- C10: in the evidence-item markup every optional field sits behind a bare
truthiness guard, so a zero sample size, duration or quality score, and an
empty source type or citation, are omitted exactly as if the field were
absent. -/
theorem evidence_zero_rendered_as_absent (e : Evidence) :
    renderEvidenceItem { e with sample_size := some 0 }
        = renderEvidenceItem { e with sample_size := none } ∧
    renderEvidenceItem { e with duration_days := some 0 }
        = renderEvidenceItem { e with duration_days := none } ∧
    renderEvidenceItem { e with quality_score := some 0 }
        = renderEvidenceItem { e with quality_score := none } ∧
    renderEvidenceItem { e with source_type := some "" }
        = renderEvidenceItem { e with source_type := none } ∧
    renderEvidenceItem { e with citation := some "" }
        = renderEvidenceItem { e with citation := none } ∧
    (renderEvidenceItem { e with sample_size := some 0 }).shows_sample_size
        = false ∧
    (renderEvidenceItem { e with duration_days := some 0 }).shows_duration_days
        = false ∧
    (renderEvidenceItem { e with quality_score := some 0 }).shows_quality_score
        = false ∧
    (renderEvidenceItem { e with source_type := some "" }).shows_source_type
        = false ∧
    (renderEvidenceItem { e with citation := some "" }).shows_citation
        = false := by
  refine ⟨?_, ?_, ?_, ?_, ?_, rfl, rfl, ?_, rfl, rfl⟩ <;>
    simp [renderEvidenceItem, truthyOptNat, truthyOptStr, truthyOptRat]

/-- Witness for C10: the theorem applied to the sample record. -/
theorem evidence_zero_rendered_as_absent_witness :
    renderEvidenceItem { badEvidence with sample_size := some 0 }
      = renderEvidenceItem { badEvidence with sample_size := none } :=
  (evidence_zero_rendered_as_absent badEvidence).1

end LCI
